import Mathlib

/-!
Shallow embedding of two near-identical CLI record keepers:
a train roster (ind.py) and a worker roster (primer.py).
Each tool persists rows in a two-table relational store
(category lookup table + entity table with a foreign key),
and exposes schema init, add, display and select operations.
The sqlite store is modelled as an explicit state value; each
stateful operation is a function on that state, and each read
returns the (unchanged) state paired with its result rows.
Python str.format padding is modelled by the pad functions below.
-/

/-- `n` dash characters, as used to build border lines. -/
def dashes (n : Nat) : String :=
  String.mk (List.replicate n '-')

/-- `n` space characters, the padding unit of Python str.format. -/
def spaces (n : Nat) : String :=
  String.mk (List.replicate n ' ')

/-- Python format `{:>w}`: pad on the left to width `w` (no truncation). -/
def padLeft (s : String) (w : Nat) : String :=
  spaces (w - s.length) ++ s

/-- Python format `{:<w}`: pad on the right to width `w` (no truncation). -/
def padRight (s : String) (w : Nat) : String :=
  s ++ spaces (w - s.length)

/-- Python format `{:^w}`: centre, the extra space going to the right. -/
def centerPad (s : String) (w : Nat) : String :=
  spaces ((w - s.length) / 2) ++ s ++ spaces ((w - s.length) - (w - s.length) / 2)

/-- Split a character list at every bar character. -/
def splitBar : List Char → List Char → List (List Char)
  | acc, [] => [acc.reverse]
  | acc, c :: cs =>
    if c = '|' then acc.reverse :: splitBar [] cs else splitBar (c :: acc) cs

/-- Drop spaces from both ends of a character list. -/
def trimSpaces (cs : List Char) : List Char :=
  ((cs.dropWhile (fun c => c = ' ')).reverse.dropWhile (fun c => c = ' ')).reverse

/-- The cell contents of a rendered table row: split at the bars,
strip the padding spaces, drop the empty pieces outside the outer bars. -/
def rowFields (s : String) : List String :=
  (((splitBar [] s.data).map trimSpaces).filter (fun cs => !cs.isEmpty)).map String.mk

namespace Ind

/-- A row of the `types` table: `type_id INTEGER PRIMARY KEY AUTOINCREMENT`,
`type_title TEXT NOT NULL`. -/
structure TypeRow where
  type_id : Nat
  type_title : String
deriving Repr, DecidableEq

/-- A row of the `trains` table. -/
structure TrainRow where
  train_id : Nat
  train_destination : String
  type_id : Nat
  train_num : Int
deriving Repr, DecidableEq

/-- A joined record as returned by the read paths:
`{"destination": ..., "typ": ..., "num": ...}`. -/
structure TrainRec where
  destination : String
  typ : String
  num : Int
deriving Repr, DecidableEq

/-- The sqlite store backing the train tool: which tables exist,
their rows in insertion order, and the AUTOINCREMENT counters. -/
structure TrainDB where
  typesCreated : Bool
  trainsCreated : Bool
  types : List TypeRow
  trains : List TrainRow
  nextTypeId : Nat
  nextTrainId : Nat
deriving Repr, DecidableEq

/-- A fresh store: the file sqlite3.connect would create, no tables yet. -/
def emptyStore : TrainDB :=
  { typesCreated := false, trainsCreated := false,
    types := [], trains := [], nextTypeId := 1, nextTrainId := 1 }

/-- `create_db`: CREATE TABLE IF NOT EXISTS for `types` and `trains`;
existing tables and their rows are left untouched. -/
def create_db (db : TrainDB) : TrainDB :=
  { db with typesCreated := true, trainsCreated := true }

/-- `add_train`: look the type up by exact title; if absent insert it and
use `cursor.lastrowid`, else reuse the found `type_id`; then insert the
train row referencing that id. -/
def add_train (db : TrainDB) (destination : String) (typ : String) (num : Int) :
    TrainDB :=
  match db.types.find? (fun ty => ty.type_title == typ) with
  | none =>
    let type_id := db.nextTypeId
    { db with
        types := db.types ++ [⟨type_id, typ⟩],
        nextTypeId := db.nextTypeId + 1,
        trains := db.trains ++ [⟨db.nextTrainId, destination, type_id, num⟩],
        nextTrainId := db.nextTrainId + 1 }
  | some row =>
    { db with
        trains := db.trains ++ [⟨db.nextTrainId, destination, row.type_id, num⟩],
        nextTrainId := db.nextTrainId + 1 }

/-- `select_all`: SELECT destination, title, num FROM trains INNER JOIN types
ON types.type_id = trains.type_id. Only SELECT statements run, so the store
is returned unchanged alongside the joined rows. -/
def select_all (db : TrainDB) : TrainDB × List TrainRec :=
  (db, db.trains.flatMap (fun tr =>
    (db.types.filter (fun ty => ty.type_id == tr.type_id)).map
      (fun ty => { destination := tr.train_destination,
                   typ := ty.type_title, num := tr.train_num })))

/-- `select_by_type`: the same join with the extra
WHERE types.type_title = ? condition (exact string comparison). -/
def select_by_type (db : TrainDB) (train : String) : TrainDB × List TrainRec :=
  (db, db.trains.flatMap (fun tr =>
    (db.types.filter (fun ty => ty.type_id == tr.type_id && ty.type_title == train)).map
      (fun ty => { destination := tr.train_destination,
                   typ := ty.type_title, num := tr.train_num })))

/-- The border line of `display_trains`:
`'+-{}-+-{}-+-{}-+-{}-+'.format('-'*4, '-'*30, '-'*20, '-'*15)`. -/
def line : String :=
  "+-" ++ dashes 4 ++ "-+-" ++ dashes 30 ++ "-+-" ++ dashes 20 ++ "-+-" ++ dashes 15 ++ "-+"

/-- The centred header row of `display_trains`. -/
def header : String :=
  "| " ++ centerPad "№" 4 ++ " | " ++ centerPad "Пункт назначения" 30 ++ " | " ++
    centerPad "Номер маршрута" 20 ++ " | " ++ centerPad "Тип поезда" 15 ++ " |"

/-- One data row of `display_trains`:
`'| {:>4} | {:<30} | {:<20} | {:>15} |'.format(idx, destination, num, typ)`. -/
def dataRow (idx : Nat) (train : TrainRec) : String :=
  "| " ++ padLeft (toString idx) 4 ++ " | " ++ padRight train.destination 30 ++ " | " ++
    padRight (toString train.num) 20 ++ " | " ++ padLeft train.typ 15 ++ " |"

/-- The `for idx, train in enumerate(staff, 1)` loop: each data row is
followed by its own border line. -/
def dataRows : Nat → List TrainRec → List String
  | _, [] => []
  | idx, r :: rs => dataRow idx r :: line :: dataRows (idx + 1) rs

/-- `display_trains`: the printed lines. Empty list prints the single
"Список поездов пуст." line; otherwise border, header, border, then the rows. -/
def display_trains (staff : List TrainRec) : List String :=
  if staff.isEmpty then ["Список поездов пуст."]
  else line :: header :: line :: dataRows 1 staff

/-- The flags a `trains add` invocation may carry (`none` = flag absent). -/
structure AddArgs where
  destination : Option String
  num : Option Int
  typ : Option String
deriving Repr, DecidableEq

/-- The argparse configuration of the `add` subcommand: `--destination`,
`--num` and `--typ` are all declared `required=True`, so a missing one makes
argparse print usage and exit non-zero before any insert runs. -/
def parse_add (a : AddArgs) : Except String (String × Int × String) :=
  match a.destination, a.num, a.typ with
  | some d, some n, some t => Except.ok (d, n, t)
  | _, _, _ => Except.error "usage error: the arguments -d -n -t are required"

/-- The stores reachable from a fresh store through the exposed
state-changing operations (`create_db` and `add_train`; the reads return
the store unchanged). -/
inductive Reachable : TrainDB → Prop where
  | init : Reachable emptyStore
  | step_create {db : TrainDB} : Reachable db → Reachable (create_db db)
  | step_add {db : TrainDB} (d t : String) (n : Int) :
      Reachable db → Reachable (add_train db d t n)

/-- Referential integrity: every train row's `type_id` is the id of some
row of the `types` table. -/
def refIntegrity (db : TrainDB) : Prop :=
  ∀ tr ∈ db.trains, ∃ ty ∈ db.types, ty.type_id = tr.type_id

end Ind

namespace Prim

/-- A row of the `posts` table: `post_id INTEGER PRIMARY KEY AUTOINCREMENT`,
`post_title TEXT NOT NULL`. -/
structure PostRow where
  post_id : Nat
  post_title : String
deriving Repr, DecidableEq

/-- A row of the `workers` table. -/
structure WorkerRow where
  worker_id : Nat
  worker_name : String
  post_id : Nat
  worker_year : Int
deriving Repr, DecidableEq

/-- A joined record as returned by the read paths:
`{"name": ..., "post": ..., "year": ...}`. -/
structure WorkerRec where
  name : String
  post : String
  year : Int
deriving Repr, DecidableEq

/-- The sqlite store backing the worker tool. -/
structure WorkerDB where
  postsCreated : Bool
  workersCreated : Bool
  posts : List PostRow
  workers : List WorkerRow
  nextPostId : Nat
  nextWorkerId : Nat
deriving Repr, DecidableEq

/-- A fresh store: the file sqlite3.connect would create, no tables yet. -/
def emptyStore : WorkerDB :=
  { postsCreated := false, workersCreated := false,
    posts := [], workers := [], nextPostId := 1, nextWorkerId := 1 }

/-- `create_db`: CREATE TABLE IF NOT EXISTS for `posts` and `workers`;
existing tables and their rows are left untouched. -/
def create_db (db : WorkerDB) : WorkerDB :=
  { db with postsCreated := true, workersCreated := true }

/-- `add_worker`: look the post up by exact title; if absent insert it and
use `cursor.lastrowid`, else reuse the found `post_id`; then insert the
worker row referencing that id. -/
def add_worker (db : WorkerDB) (name : String) (post : String) (year : Int) :
    WorkerDB :=
  match db.posts.find? (fun p => p.post_title == post) with
  | none =>
    let post_id := db.nextPostId
    { db with
        posts := db.posts ++ [⟨post_id, post⟩],
        nextPostId := db.nextPostId + 1,
        workers := db.workers ++ [⟨db.nextWorkerId, name, post_id, year⟩],
        nextWorkerId := db.nextWorkerId + 1 }
  | some row =>
    { db with
        workers := db.workers ++ [⟨db.nextWorkerId, name, row.post_id, year⟩],
        nextWorkerId := db.nextWorkerId + 1 }

/-- `select_all`: SELECT name, title, year FROM workers INNER JOIN posts
ON posts.post_id = workers.post_id. Only SELECT statements run, so the
store is returned unchanged alongside the joined rows. -/
def select_all (db : WorkerDB) : WorkerDB × List WorkerRec :=
  (db, db.workers.flatMap (fun w =>
    (db.posts.filter (fun p => p.post_id == w.post_id)).map
      (fun p => { name := w.worker_name, post := p.post_title,
                  year := w.worker_year })))

/-- `select_by_period`: the same join with the extra WHERE clause
`(strftime('%Y', date('now')) - workers.worker_year) >= ?`. The current
year read from the system clock is the explicit `today` argument. -/
def select_by_period (db : WorkerDB) (today : Int) (period : Int) :
    WorkerDB × List WorkerRec :=
  (db, (db.workers.filter (fun w => decide (today - w.worker_year ≥ period))).flatMap
    (fun w => (db.posts.filter (fun p => p.post_id == w.post_id)).map
      (fun p => { name := w.worker_name, post := p.post_title,
                  year := w.worker_year })))

/-- The border line of `display_workers`:
`'+-{}-+-{}-+-{}-+-{}-+'.format('-'*4, '-'*30, '-'*20, '-'*8)`. -/
def line : String :=
  "+-" ++ dashes 4 ++ "-+-" ++ dashes 30 ++ "-+-" ++ dashes 20 ++ "-+-" ++ dashes 8 ++ "-+"

/-- The centred header row of `display_workers`. -/
def header : String :=
  "| " ++ centerPad "No" 4 ++ " | " ++ centerPad "Ф.И.О." 30 ++ " | " ++
    centerPad "Должность" 20 ++ " | " ++ centerPad "Год" 8 ++ " |"

/-- One data row of `display_workers`:
`'| {:>4} | {:<30} | {:<20} | {:>8} |'.format(idx, name, post, year)`. -/
def dataRow (idx : Nat) (worker : WorkerRec) : String :=
  "| " ++ padLeft (toString idx) 4 ++ " | " ++ padRight worker.name 30 ++ " | " ++
    padRight worker.post 20 ++ " | " ++ padLeft (toString worker.year) 8 ++ " |"

/-- The `for idx, worker in enumerate(staff, 1)` loop: each data row is
followed by its own border line. -/
def dataRows : Nat → List WorkerRec → List String
  | _, [] => []
  | idx, r :: rs => dataRow idx r :: line :: dataRows (idx + 1) rs

/-- `display_workers`: the printed lines. Empty list prints the single
"Список работников пуст." line; otherwise border, header, border, rows. -/
def display_workers (staff : List WorkerRec) : List String :=
  if staff.isEmpty then ["Список работников пуст."]
  else line :: header :: line :: dataRows 1 staff

/-- The flags a `workers add` invocation may carry (`none` = flag absent). -/
structure AddArgs where
  name : Option String
  post : Option String
  year : Option Int
deriving Repr, DecidableEq

/-- The argparse configuration of the `add` subcommand: `--name` and
`--year` are declared `required=True`, but `--post` is declared WITHOUT
`required=True`, so a missing post parses successfully with value `None`
and the dispatcher proceeds to the insert. -/
def parse_add (a : AddArgs) : Except String (String × Option String × Int) :=
  match a.name, a.year with
  | some n, some y => Except.ok (n, a.post, y)
  | _, _ => Except.error "usage error: the arguments -n -y are required"

/-- `add_worker` as invoked by `main` with the parsed `--post` value, which
may be `None` when the flag is omitted. With `post = None` the lookup
`SELECT post_id FROM posts WHERE post_title = ?` binds NULL and matches no
row (SQL NULL comparison), so the code reaches
`INSERT INTO posts (post_title) VALUES (NULL)`, which violates the
`post_title TEXT NOT NULL` constraint and raises sqlite3.IntegrityError
before any row is committed. -/
def add_worker_from_main (db : WorkerDB) (name : String) (post : Option String)
    (year : Int) : Except String WorkerDB :=
  match post with
  | some p => Except.ok (add_worker db name p year)
  | none => Except.error "NOT NULL constraint failed: posts.post_title"

/-- The stores reachable from a fresh store through the exposed
state-changing operations (`create_db` and `add_worker`; the reads return
the store unchanged). -/
inductive Reachable : WorkerDB → Prop where
  | init : Reachable emptyStore
  | step_create {db : WorkerDB} : Reachable db → Reachable (create_db db)
  | step_add {db : WorkerDB} (n p : String) (y : Int) :
      Reachable db → Reachable (add_worker db n p y)

/-- Referential integrity: every worker row's `post_id` is the id of some
row of the `posts` table. -/
def refIntegrity (db : WorkerDB) : Prop :=
  ∀ w ∈ db.workers, ∃ p ∈ db.posts, p.post_id = w.post_id

end Prim

/-- The train data row as the specification's alignment sentence describes
it ("text fields left-aligned, numeric fields right-aligned") applied to
the train presenter's columns: destination and type title padded on the
right, route number padded on the left. Stated from the spec's words, to
be compared with `Ind.dataRow`, which embeds the code. -/
def specAlignedTrainRow (idx : Nat) (train : Ind.TrainRec) : String :=
  "| " ++ padLeft (toString idx) 4 ++ " | " ++ padRight train.destination 30 ++ " | " ++
    padLeft (toString train.num) 20 ++ " | " ++ padRight train.typ 15 ++ " |"

/-- C1, counterexample: on the fresh-store add-then-display scenario the
single data row's cells read, in order, row number "1", destination
"Moscow", route number "101", type "Express" — not
"1", "Moscow", "Express", "101" as the claim states (the presenter prints
the route number in the third column and the type title in the fourth,
matching its own header labels). -/
theorem C1_field_order_counterexample :
    rowFields ((Ind.display_trains
        (Ind.select_all (Ind.add_train (Ind.create_db Ind.emptyStore)
          "Moscow" "Express" 101)).2).getD 3 "") =
      ["1", "Moscow", "101", "Express"] ∧
    (["1", "Moscow", "101", "Express"] : List String) ≠
      ["1", "Moscow", "Express", "101"] := by
  constructor <;> decide

/-- C1, amended: `add --destination "Moscow" --type "Express" --num 101`
followed by `display` on a fresh store prints exactly five lines — border,
header, border, one data row, border — and the data row's cells are, in
order: row number 1, destination "Moscow", route number 101, category
title "Express". -/
theorem C1_add_display_one_row :
    Ind.display_trains
        (Ind.select_all (Ind.add_train (Ind.create_db Ind.emptyStore)
          "Moscow" "Express" 101)).2 =
      [Ind.line, Ind.header, Ind.line,
       Ind.dataRow 1 ⟨"Moscow", "Express", 101⟩, Ind.line] ∧
    rowFields (Ind.dataRow 1 ⟨"Moscow", "Express", 101⟩) =
      ["1", "Moscow", "101", "Express"] := by
  constructor <;> decide

/-- C5: the worker tool's `--post` flag is not declared required, so
`workers add --name "Ivanov" --year 2020` with `--post` omitted is NOT an
argument error: argparse accepts it with `post = None`, and the insert then
fails on the `post_title TEXT NOT NULL` constraint instead of printing
usage text. The train tool's three add flags, and the worker tool's
`--name` and `--year`, are required as the claim says. -/
theorem C5_post_flag_not_required :
    Prim.parse_add ⟨some "Ivanov", none, some 2020⟩ =
      Except.ok ("Ivanov", none, 2020) ∧
    Prim.add_worker_from_main (Prim.create_db Prim.emptyStore)
        "Ivanov" none 2020 =
      Except.error "NOT NULL constraint failed: posts.post_title" ∧
    (∀ n t, Ind.parse_add ⟨none, n, t⟩ =
      Except.error "usage error: the arguments -d -n -t are required") ∧
    (∀ d t, Ind.parse_add ⟨d, none, t⟩ =
      Except.error "usage error: the arguments -d -n -t are required") ∧
    (∀ d n, Ind.parse_add ⟨d, n, none⟩ =
      Except.error "usage error: the arguments -d -n -t are required") ∧
    (∀ p y, Prim.parse_add ⟨none, p, y⟩ =
      Except.error "usage error: the arguments -n -y are required") ∧
    (∀ n p, Prim.parse_add ⟨n, p, none⟩ =
      Except.error "usage error: the arguments -n -y are required") := by
  refine ⟨rfl, rfl, ?_, ?_, ?_, ?_, ?_⟩
  · intro n t; rfl
  · intro d t; cases d <;> rfl
  · intro d n; cases d <;> cases n <;> rfl
  · intro p y; rfl
  · intro n p; cases n <;> rfl

/-- A border line starts with a plus while every train data row starts
with a bar, so no data row ever equals the border line. -/
theorem Ind.trainRow_ne_border (idx : Nat) (r : Ind.TrainRec) :
    Ind.dataRow idx r ≠ Ind.line := by
  intro h
  have hc : (Ind.dataRow idx r).data.head? = Ind.line.data.head? := by rw [h]
  have hc2 : (some '|' : Option Char) = some '+' := hc
  simp at hc2

/-- The train header row starts with a bar, the border line with a plus. -/
theorem Ind.trainHeader_ne_border : Ind.header ≠ Ind.line := by
  intro h
  have hc : Ind.header.data.head? = Ind.line.data.head? := by rw [h]
  have hc2 : (some '|' : Option Char) = some '+' := hc
  simp at hc2

/-- A border line starts with a plus while every worker data row starts
with a bar, so no data row ever equals the border line. -/
theorem Prim.workerRow_ne_border (idx : Nat) (r : Prim.WorkerRec) :
    Prim.dataRow idx r ≠ Prim.line := by
  intro h
  have hc : (Prim.dataRow idx r).data.head? = Prim.line.data.head? := by rw [h]
  have hc2 : (some '|' : Option Char) = some '+' := hc
  simp at hc2

/-- The worker header row starts with a bar, the border line with a plus. -/
theorem Prim.workerHeader_ne_border : Prim.header ≠ Prim.line := by
  intro h
  have hc : Prim.header.data.head? = Prim.line.data.head? := by rw [h]
  have hc2 : (some '|' : Option Char) = some '+' := hc
  simp at hc2

/-- C6, counterexample: the claim fails on the code twice. Alignment: the
train presenter's displayed data row left-aligns the numeric route number
and right-aligns the text type title, so it differs from the row the
claim's "text left-aligned, numeric right-aligned" rule prescribes. Border
count: presenting two records yields 4 border lines in each tool (top,
after the header, and one after each of the 2 data rows — the header row
itself is not a border line), not the claimed total of 5. -/
theorem C6_claim_counterexample :
    (Ind.display_trains [⟨"Moscow", "Express", 101⟩]).getD 3 "" =
      Ind.dataRow 1 ⟨"Moscow", "Express", 101⟩ ∧
    Ind.dataRow 1 ⟨"Moscow", "Express", 101⟩ ≠
      specAlignedTrainRow 1 ⟨"Moscow", "Express", 101⟩ ∧
    (Ind.display_trains [⟨"Moscow", "Express", 101⟩, ⟨"Tver", "Local", 5⟩]).count
        Ind.line = 4 ∧
    (Prim.display_workers [⟨"A", "Engineer", 2000⟩, ⟨"B", "Clerk", 2001⟩]).count
        Prim.line = 4 ∧
    (4 : Nat) ≠ 5 := by
  refine ⟨?_, ?_, ?_, ?_, ?_⟩ <;> decide

/-- C6, amended: for two records each presenter emits exactly the seven
lines top border, centred header, separator border, first data row, border,
second data row, border — 2 data rows, each immediately followed by its own
border line, and exactly four border lines in all (the header row is not a
border line); row numbers are 1-indexed and right-aligned; in the worker
presenter name and post are left-aligned and the year right-aligned as
claimed, while in the train presenter the numeric route number is
left-aligned and the text type title right-aligned (`Ind.dataRow` embeds
that formatting). -/
theorem C6_presenter_structure :
    (∀ a b : Prim.WorkerRec,
      Prim.display_workers [a, b] =
        [Prim.line, Prim.header, Prim.line, Prim.dataRow 1 a, Prim.line,
         Prim.dataRow 2 b, Prim.line]) ∧
    (∀ a b : Ind.TrainRec,
      Ind.display_trains [a, b] =
        [Ind.line, Ind.header, Ind.line, Ind.dataRow 1 a, Ind.line,
         Ind.dataRow 2 b, Ind.line]) ∧
    (∀ a b : Prim.WorkerRec,
      (Prim.display_workers [a, b]).count Prim.line = 4) ∧
    (∀ a b : Ind.TrainRec,
      (Ind.display_trains [a, b]).count Ind.line = 4) := by
  refine ⟨fun _ _ => rfl, fun _ _ => rfl, ?_, ?_⟩
  · intro a b
    simp [Prim.display_workers, Prim.dataRows, List.count_cons, List.count_nil,
      Prim.workerRow_ne_border 1 a, Prim.workerRow_ne_border 2 b,
      Prim.workerHeader_ne_border]
  · intro a b
    simp [Ind.display_trains, Ind.dataRows, List.count_cons, List.count_nil,
      Ind.trainRow_ne_border 1 a, Ind.trainRow_ne_border 2 b,
      Ind.trainHeader_ne_border]

/-- C7: the schema initializer is idempotent on every store state — running
it twice leaves exactly the state one run produces (tables are created only
if absent; existing tables and all rows are untouched), for both tools. -/
theorem C7_create_db_idempotent :
    (∀ db : Ind.TrainDB, Ind.create_db (Ind.create_db db) = Ind.create_db db) ∧
    (∀ db : Prim.WorkerDB, Prim.create_db (Prim.create_db db) = Prim.create_db db) :=
  ⟨fun _ => rfl, fun _ => rfl⟩

/-- C9: on an empty list each presenter prints exactly one line, the
tool's literal empty-list message, and nothing else — no borders, no
header. -/
theorem C9_empty_display :
    Ind.display_trains [] = ["Список поездов пуст."] ∧
    Prim.display_workers [] = ["Список работников пуст."] :=
  ⟨rfl, rfl⟩

/-- C10: the read operations run only SELECT statements and return the
store unchanged — for every store state, `select_all`, `select_by_type`
and `select_by_period` leave every category row and every entity row (the
whole store state) exactly as it was; the presenter takes only the
returned list and never touches the store. -/
theorem C10_reads_preserve_store :
    (∀ db : Ind.TrainDB, (Ind.select_all db).1 = db) ∧
    (∀ (db : Ind.TrainDB) (t : String), (Ind.select_by_type db t).1 = db) ∧
    (∀ db : Prim.WorkerDB, (Prim.select_all db).1 = db) ∧
    (∀ (db : Prim.WorkerDB) (today period : Int),
      (Prim.select_by_period db today period).1 = db) :=
  ⟨fun _ => rfl, fun _ _ => rfl, fun _ => rfl, fun _ _ _ => rfl⟩

namespace Ind

/-- The empty store holds no train rows, so integrity holds vacuously. -/
theorem refIntegrity_empty_trains : refIntegrity emptyStore := by
  intro tr htr
  exact absurd htr (List.not_mem_nil tr)

/-- `create_db` touches neither table's rows, so it preserves integrity. -/
theorem refIntegrity_create_trains (db : TrainDB) (h : refIntegrity db) :
    refIntegrity (create_db db) := h

/-- `add_train` preserves integrity: the inserted train row references
either the freshly inserted type row or the one the lookup found. -/
theorem refIntegrity_add_trains (db : TrainDB) (d t : String) (n : Int)
    (h : refIntegrity db) : refIntegrity (add_train db d t n) := by
  intro tr htr
  rcases hfind : db.types.find? (fun ty => ty.type_title == t) with _ | row
  · simp only [add_train, hfind] at htr ⊢
    rcases List.mem_append.mp htr with htr | htr
    · obtain ⟨ty, hty, hid⟩ := h tr htr
      exact ⟨ty, List.mem_append_left _ hty, hid⟩
    · rcases List.mem_singleton.mp htr with rfl
      exact ⟨⟨db.nextTypeId, t⟩,
        List.mem_append_right _ (List.mem_singleton_self _), rfl⟩
  · simp only [add_train, hfind] at htr ⊢
    rcases List.mem_append.mp htr with htr | htr
    · exact h tr htr
    · rcases List.mem_singleton.mp htr with rfl
      exact ⟨row, List.mem_of_find?_eq_some hfind, rfl⟩

end Ind

namespace Prim

/-- The empty store holds no worker rows, so integrity holds vacuously. -/
theorem refIntegrity_empty_workers : refIntegrity emptyStore := by
  intro w hw
  exact absurd hw (List.not_mem_nil w)

/-- `create_db` touches neither table's rows, so it preserves integrity. -/
theorem refIntegrity_create_workers (db : WorkerDB) (h : refIntegrity db) :
    refIntegrity (create_db db) := h

/-- `add_worker` preserves integrity: the inserted worker row references
either the freshly inserted post row or the one the lookup found. -/
theorem refIntegrity_add_workers (db : WorkerDB) (nm p : String) (y : Int)
    (h : refIntegrity db) : refIntegrity (add_worker db nm p y) := by
  intro w hw
  rcases hfind : db.posts.find? (fun q => q.post_title == p) with _ | row
  · simp only [add_worker, hfind] at hw ⊢
    rcases List.mem_append.mp hw with hw | hw
    · obtain ⟨q, hq, hid⟩ := h w hw
      exact ⟨q, List.mem_append_left _ hq, hid⟩
    · rcases List.mem_singleton.mp hw with rfl
      exact ⟨⟨db.nextPostId, p⟩,
        List.mem_append_right _ (List.mem_singleton_self _), rfl⟩
  · simp only [add_worker, hfind] at hw ⊢
    rcases List.mem_append.mp hw with hw | hw
    · exact h w hw
    · rcases List.mem_singleton.mp hw with rfl
      exact ⟨row, List.mem_of_find?_eq_some hfind, rfl⟩

end Prim

/-- C2: a worker record is returned by `select_by_period` iff it is a
joined record of the store and current_year − hire_year ≥ period (the
comparison is ≥ and the subtraction is current year minus hire year); in
particular, for any current year Y a worker hired in year Y − 5 is
returned for period 5 and for period 4 but not for period 6. -/
theorem C2_select_by_period_geq :
    (∀ (db : Prim.WorkerDB) (today period : Int) (r : Prim.WorkerRec),
        r ∈ (Prim.select_by_period db today period).2 ↔
          r ∈ (Prim.select_all db).2 ∧ today - r.year ≥ period) ∧
    (∀ Y : Int,
      (⟨"Ivanov", "Engineer", Y - 5⟩ : Prim.WorkerRec) ∈
        (Prim.select_by_period (Prim.add_worker (Prim.create_db Prim.emptyStore)
          "Ivanov" "Engineer" (Y - 5)) Y 5).2 ∧
      (⟨"Ivanov", "Engineer", Y - 5⟩ : Prim.WorkerRec) ∈
        (Prim.select_by_period (Prim.add_worker (Prim.create_db Prim.emptyStore)
          "Ivanov" "Engineer" (Y - 5)) Y 4).2 ∧
      (⟨"Ivanov", "Engineer", Y - 5⟩ : Prim.WorkerRec) ∉
        (Prim.select_by_period (Prim.add_worker (Prim.create_db Prim.emptyStore)
          "Ivanov" "Engineer" (Y - 5)) Y 6).2) := by
  constructor
  · intro db today period r
    simp only [Prim.select_by_period, Prim.select_all, List.mem_flatMap,
      List.mem_filter, List.mem_map, decide_eq_true_eq]
    constructor
    · rintro ⟨w, ⟨hw, hcond⟩, p, hp, rfl⟩
      exact ⟨⟨w, hw, p, hp, rfl⟩, hcond⟩
    · rintro ⟨⟨w, hw, p, hp, rfl⟩, hcond⟩
      exact ⟨w, ⟨hw, hcond⟩, p, hp, rfl⟩
  · intro Y
    have hdb : Prim.add_worker (Prim.create_db Prim.emptyStore)
        "Ivanov" "Engineer" (Y - 5) =
        ⟨true, true, [⟨1, "Engineer"⟩], [⟨1, "Ivanov", 1, Y - 5⟩], 2, 2⟩ := rfl
    refine ⟨?_, ?_, ?_⟩ <;>
      simp [hdb, Prim.select_by_period, List.mem_flatMap, List.mem_filter,
        List.mem_map]

/-- C3: a train record is returned by `select_by_type` iff it is a joined
record of the store and its category title equals the supplied filter
exactly (case-sensitive string equality); in particular, on a fresh store
holding one "Express" train, that train is returned for filter "Express"
and not for "Local" or "express". -/
theorem C3_select_by_type_exact :
    (∀ (db : Ind.TrainDB) (t : String) (r : Ind.TrainRec),
        r ∈ (Ind.select_by_type db t).2 ↔
          r ∈ (Ind.select_all db).2 ∧ r.typ = t) ∧
    ((⟨"Moscow", "Express", 101⟩ : Ind.TrainRec) ∈
        (Ind.select_by_type (Ind.add_train (Ind.create_db Ind.emptyStore)
          "Moscow" "Express" 101) "Express").2 ∧
     (⟨"Moscow", "Express", 101⟩ : Ind.TrainRec) ∉
        (Ind.select_by_type (Ind.add_train (Ind.create_db Ind.emptyStore)
          "Moscow" "Express" 101) "Local").2 ∧
     (⟨"Moscow", "Express", 101⟩ : Ind.TrainRec) ∉
        (Ind.select_by_type (Ind.add_train (Ind.create_db Ind.emptyStore)
          "Moscow" "Express" 101) "express").2) := by
  constructor
  · intro db t r
    simp only [Ind.select_by_type, Ind.select_all, List.mem_flatMap,
      List.mem_filter, List.mem_map, Bool.and_eq_true, beq_iff_eq]
    constructor
    · rintro ⟨tr, htr, ty, ⟨hty, hid, htitle⟩, rfl⟩
      exact ⟨⟨tr, htr, ty, ⟨hty, hid⟩, rfl⟩, htitle⟩
    · rintro ⟨⟨tr, htr, ty, ⟨hty, hid⟩, rfl⟩, htitle⟩
      exact ⟨tr, htr, ty, ⟨hty, hid, htitle⟩, rfl⟩
  · refine ⟨?_, ?_, ?_⟩ <;> decide

/-- C4: from a fresh store, two adds with the same category title yield
exactly one category row (id 1) bearing that title, and both entity rows
reference id 1 — for both tools; and two adds whose titles differ (for
example only in letter case) yield two distinct category rows, each entity
row referencing its own. -/
theorem C4_category_dedup_case_sensitive :
    (∀ (post n₁ n₂ : String) (y₁ y₂ : Int),
      (Prim.add_worker (Prim.add_worker (Prim.create_db Prim.emptyStore) n₁ post y₁)
          n₂ post y₂).posts = [⟨1, post⟩] ∧
      (Prim.add_worker (Prim.add_worker (Prim.create_db Prim.emptyStore) n₁ post y₁)
          n₂ post y₂).workers = [⟨1, n₁, 1, y₁⟩, ⟨2, n₂, 1, y₂⟩]) ∧
    (∀ (t d₁ d₂ : String) (m₁ m₂ : Int),
      (Ind.add_train (Ind.add_train (Ind.create_db Ind.emptyStore) d₁ t m₁)
          d₂ t m₂).types = [⟨1, t⟩] ∧
      (Ind.add_train (Ind.add_train (Ind.create_db Ind.emptyStore) d₁ t m₁)
          d₂ t m₂).trains = [⟨1, d₁, 1, m₁⟩, ⟨2, d₂, 1, m₂⟩]) ∧
    (∀ (t₁ t₂ n₁ n₂ : String) (y₁ y₂ : Int), t₁ ≠ t₂ →
      (Prim.add_worker (Prim.add_worker (Prim.create_db Prim.emptyStore) n₁ t₁ y₁)
          n₂ t₂ y₂).posts = [⟨1, t₁⟩, ⟨2, t₂⟩] ∧
      (Prim.add_worker (Prim.add_worker (Prim.create_db Prim.emptyStore) n₁ t₁ y₁)
          n₂ t₂ y₂).workers = [⟨1, n₁, 1, y₁⟩, ⟨2, n₂, 2, y₂⟩]) := by
  refine ⟨?_, ?_, ?_⟩
  · intro post n₁ n₂ y₁ y₂
    have h1 : Prim.add_worker (Prim.create_db Prim.emptyStore) n₁ post y₁ =
        ⟨true, true, [⟨1, post⟩], [⟨1, n₁, 1, y₁⟩], 2, 2⟩ := rfl
    have h2 : List.find? (fun p => p.post_title == post)
        [(⟨1, post⟩ : Prim.PostRow)] = some ⟨1, post⟩ :=
      List.find?_cons_of_pos _ (by simp)
    rw [h1]
    simp [Prim.add_worker, h2]
  · intro t d₁ d₂ m₁ m₂
    have h1 : Ind.add_train (Ind.create_db Ind.emptyStore) d₁ t m₁ =
        ⟨true, true, [⟨1, t⟩], [⟨1, d₁, 1, m₁⟩], 2, 2⟩ := rfl
    have h2 : List.find? (fun ty => ty.type_title == t)
        [(⟨1, t⟩ : Ind.TypeRow)] = some ⟨1, t⟩ :=
      List.find?_cons_of_pos _ (by simp)
    rw [h1]
    simp [Ind.add_train, h2]
  · intro t₁ t₂ n₁ n₂ y₁ y₂ hne
    have h1 : Prim.add_worker (Prim.create_db Prim.emptyStore) n₁ t₁ y₁ =
        ⟨true, true, [⟨1, t₁⟩], [⟨1, n₁, 1, y₁⟩], 2, 2⟩ := rfl
    have h2 : List.find? (fun p => p.post_title == t₂)
        [(⟨1, t₁⟩ : Prim.PostRow)] = none := by
      apply List.find?_eq_none.mpr
      intro p hp
      rcases List.mem_singleton.mp hp with rfl
      simpa using hne
    rw [h1]
    simp [Prim.add_worker, h2]

/-- Witness for C4 at concrete inputs: "Engineer" and "engineer" differ
only in letter case yet produce two distinct category rows, each worker
referencing its own. -/
theorem C4_witness :
    ("Engineer" : String) ≠ "engineer" ∧
    ((Prim.add_worker (Prim.add_worker (Prim.create_db Prim.emptyStore)
        "A" "Engineer" 2000) "B" "engineer" 2001).posts =
      [⟨1, "Engineer"⟩, ⟨2, "engineer"⟩] ∧
     (Prim.add_worker (Prim.add_worker (Prim.create_db Prim.emptyStore)
        "A" "Engineer" 2000) "B" "engineer" 2001).workers =
      [⟨1, "A", 1, 2000⟩, ⟨2, "B", 2, 2001⟩]) :=
  ⟨by decide,
   C4_category_dedup_case_sensitive.2.2 "Engineer" "engineer" "A" "B" 2000 2001
     (by decide)⟩

/-- C8: referential integrity is an invariant of both tools — in every
store reachable from the fresh store through the exposed operations
(schema init and add; the reads leave the store unchanged), every train
row's `type_id` and every worker row's `post_id` is the id of an existing
category row. For the train tool this holds by the write path's logic
alone: the schema's FOREIGN KEY clause names a table `posts` that its
initializer never creates, so sqlite never enforces it. -/
theorem C8_referential_integrity :
    (∀ db : Ind.TrainDB, Ind.Reachable db → Ind.refIntegrity db) ∧
    (∀ db : Prim.WorkerDB, Prim.Reachable db → Prim.refIntegrity db) := by
  constructor
  · intro db h
    induction h with
    | init => exact Ind.refIntegrity_empty_trains
    | step_create _ ih => exact Ind.refIntegrity_create_trains _ ih
    | step_add d t n _ ih => exact Ind.refIntegrity_add_trains _ d t n ih
  · intro db h
    induction h with
    | init => exact Prim.refIntegrity_empty_workers
    | step_create _ ih => exact Prim.refIntegrity_create_workers _ ih
    | step_add n p y _ ih => exact Prim.refIntegrity_add_workers _ n p y ih

/-- Witness for C8 at a concrete reachable store: the store obtained by
schema init followed by one add satisfies referential integrity. -/
theorem C8_witness :
    Ind.refIntegrity (Ind.add_train (Ind.create_db Ind.emptyStore)
      "Moscow" "Express" 101) :=
  C8_referential_integrity.1 _
    (Ind.Reachable.step_add "Moscow" "Express" 101
      (Ind.Reachable.step_create Ind.Reachable.init))
